import Mathlib

/-
Shallow embedding of the content-addressed publish pipeline of the patr
repository (Go packages feed and ipfs, both in src/unnamed/part_000).

Conventions used throughout:
  - Go byte slices are List Nat and Go strings are String.
  - A Go error value is Option String, where none is the nil error.
  - External library calls whose internals are irrelevant to the claims
    (JSON unmarshalling, remote block fetching, IPLD node decoding) are
    passed in as explicit function parameters.
  - The side effects of one CreateProfile run are recorded as a trace of
    events, driven by an environment that fixes the outcome of each
    fallible step; the trace and returned error follow the Go control
    flow of feed.CreateProfile line by line.
-/

/-- Model of bytes.Buffer.Read for a destination slice of length plen:
if the buffer is empty and plen is nonzero it returns 0 bytes read and the
io.EOF error; otherwise it removes min plen length bytes from the front of
the buffer and returns how many were consumed with a nil error. -/
def bufferRead (buf : List Nat) (plen : Nat) : List Nat × Nat × Option String :=
  if buf.length = 0 ∧ plen ≠ 0 then ([], 0, some "EOF")
  else (buf.drop plen, min plen buf.length, none)

/-- Model of cid.CidFromBytes: an empty byte slice is not a valid CID and
is rejected; any nonempty byte slice stands for the CID it encodes. -/
def cidFromBytes (b : List Nat) : Except String (List Nat) :=
  if b.length = 0 then .error "invalid cid" else .ok b

/-- The data-carrying fields of ipfs.IPFSLinkWriter: the CID of the link
being written and the internal bytes.Buffer.  The ctx, ipfs, w3s and log
handle fields of the Go struct carry no bytes and are omitted. -/
structure IPFSLinkWriter where
  cid : List Nat
  data : List Nat
deriving DecidableEq

/-- ipfs.IPFSCore.OpenWrite: parse the CID out of the binary form of the
link and hand back a fresh writer whose buffer is the empty
bytes.Buffer literal, together with its BlockWriteCommit method. -/
def IPFSCore.openWrite (lnkBinary : List Nat) : Except String IPFSLinkWriter :=
  match cidFromBytes lnkBinary with
  | .error e => .error e
  | .ok k => .ok { cid := k, data := [] }

/-- ipfs.IPFSLinkWriter.Write, exactly as the source has it: the body is
the single statement that returns w.data.Read(d), so the method reads from
the internal buffer into the argument slice instead of appending the
argument to the buffer.  The result is the writer after the call, the
returned byte count, and the returned error. -/
def IPFSLinkWriter.write (w : IPFSLinkWriter) (d : List Nat) :
    IPFSLinkWriter × Nat × Option String :=
  let r := bufferRead w.data d.length
  ({ w with data := r.1 }, r.2.1, r.2.2)

/-- ipfs.IPFSLinkWriter.BlockWriteCommit: the entire routing body (local
block put plus CAR upload to Web3.Storage) is commented out in the source,
leaving only a bare return nil, so committing changes no store and reports
no error. -/
def IPFSLinkWriter.blockWriteCommit (_w : IPFSLinkWriter)
    (store : List Nat → Option (List Nat)) :
    (List Nat → Option (List Nat)) × Option String :=
  (store, none)

/-- Api.Block().Get followed by io.ReadAll against a block store mapping a
CID to block bytes: a missing block is an error, a present block yields
its bytes and a nil read error. -/
def storeBlockGet (store : List Nat → Option (List Nat)) (k : List Nat) :
    Except String (List Nat × Option String) :=
  match store k with
  | none => .error "block not found"
  | some bs => .ok (bs, none)

/-- Api.Block().Stat against a local store holding a set of CIDs: a nil
error exactly when the block is present, a not-found error otherwise.
Stat inspects only presence and never fetches the block bytes. -/
def blockStat (store : List (List Nat)) (c : List Nat) : Option String :=
  if c ∈ store then none else some "block not found"

/-- ipfs.IPFSCore.Has, exactly as the source has it: parse the CID from
the key bytes (returning false with the parse error on failure), Stat the
block, and return the pair (err != nil, err). -/
def IPFSCore.has (store : List (List Nat)) (key : List Nat) :
    Bool × Option String :=
  match cidFromBytes key with
  | .error e => (false, some e)
  | .ok c =>
    let err := blockStat store c
    (err.isSome, err)

/-- The one field of an ipldlegacy decoded node the pipeline reads: its
raw data bytes, as returned by RawData(). -/
structure IPLDNode where
  rawData : List Nat
deriving DecidableEq

/-- Outcome of running a Go function that may dereference a nil pointer:
either it panics, or it returns a value. -/
inductive GoOutcome (α : Type) where
  | panics : GoOutcome α
  | ret : α → GoOutcome α
deriving DecidableEq

/-- ipfs.IPFSCore.Get.  blockGet stands for Api.Block().Get followed by
io.ReadAll and yields the buffered bytes paired with the read error the
source discards; decodeNode stands for ipldlegacy.DecodeNode.  The source
returns ul.RawData() together with the decode error, so when decoding
fails the nil node is dereferenced and the call panics instead of
returning the decode error; the error from io.ReadAll is never consulted.
The error ignored on the blocks.NewBlockWithCid call is absorbed into
blockGet. -/
def IPFSCore.get
    (blockGet : List Nat → Except String (List Nat × Option String))
    (decodeNode : List Nat → Except String IPLDNode)
    (key : List Nat) : GoOutcome (List Nat × Option String) :=
  match cidFromBytes key with
  | .error e => .ret ([], some e)
  | .ok k =>
    match blockGet k with
    | .error e => .ret ([], some e)
    | .ok (buf, _readErr) =>
      match decodeNode buf with
      | .error _ => .panics
      | .ok ul => .ret (ul.rawData, none)

/-- ipfs.IPFSCore.OpenRead: identical control flow to IPFSCore.Get except
that on success the raw data is returned wrapped in a bytes reader, and a
CID parse or block fetch failure returns a nil reader with the error. -/
def IPFSCore.openRead
    (blockGet : List Nat → Except String (List Nat × Option String))
    (decodeNode : List Nat → Except String IPLDNode)
    (lnkBinary : List Nat) : GoOutcome (Option (List Nat) × Option String) :=
  match cidFromBytes lnkBinary with
  | .error e => .ret (none, some e)
  | .ok k =>
    match blockGet k with
    | .error e => .ret (none, some e)
    | .ok (buf, _readErr) =>
      match decodeNode buf with
      | .error _ => .panics
      | .ok ul => .ret (some ul.rawData, none)

/-- The calls feed.CreateProfile makes, in source order.  parseDid is
did.Parse, resolveENS is blockchain.ResolveENS, startNode is
ipfs.StartIPFSNode, encodeNode is dagjson.Encode, sumCid is
cidprefix.Sum, newBlock is blocks.NewBlockWithCid, pinLocal is
Dag().Pinning().Add, publishLocalIPNS is ipfs.PublishIPNSRecordForDAGNode,
putW3S is ipfs.PutIPFSDAGBlockToW3S, publishW3SName is
ipfs.PublishIPNSRecordForDAGNodeToW3S, and shutdown is the ipfsShutdown
closure returned by StartIPFSNode. -/
inductive PEvent where
  | parseDid
  | resolveENS
  | startNode
  | encodeNode
  | sumCid
  | newBlock
  | pinLocal
  | publishLocalIPNS
  | putW3S
  | publishW3SName
  | shutdown
deriving DecidableEq, BEq

/-- Environment fixing the outcome of each fallible step of one
feed.CreateProfile run: none means the step succeeds, some e means it
fails with error e.  publishLocalErr is the error the local IPNS publish
call on line 112 would return; the source discards that return value, so
no equation of createProfile consults this field. -/
structure CreateProfileEnv where
  parseErr : Option String
  ensErr : Option String
  startErr : Option String
  encodeErr : Option String
  sumErr : Option String
  newBlockErr : Option String
  pinErr : Option String
  publishLocalErr : Option String
  putW3SErr : Option String
  publishW3SNameErr : Option String

/-- feed.CreateProfile, step by step: the trace of calls it performs and
the error it returns, following the Go control flow exactly.  Every error
branch after StartIPFSNode succeeds calls ipfsShutdown before returning;
the final statements publish the name record to Web3.Storage, call
ipfsShutdown, and return whatever that last publish returned.  The return
value of the local IPNS publish on line 112 is discarded by the source, so
the run continues regardless of publishLocalErr. -/
def createProfile (env : CreateProfileEnv) : List PEvent × Option String :=
  match env.parseErr with
  | some e => ([.parseDid], some e)
  | none =>
    match env.ensErr with
    | some e => ([.parseDid, .resolveENS], some e)
    | none =>
      match env.startErr with
      | some e => ([.parseDid, .resolveENS, .startNode], some e)
      | none =>
        match env.encodeErr with
        | some e =>
          ([.parseDid, .resolveENS, .startNode, .encodeNode, .shutdown], some e)
        | none =>
          match env.sumErr with
          | some e =>
            ([.parseDid, .resolveENS, .startNode, .encodeNode, .sumCid,
              .shutdown], some e)
          | none =>
            match env.newBlockErr with
            | some e =>
              ([.parseDid, .resolveENS, .startNode, .encodeNode, .sumCid,
                .newBlock, .shutdown], some e)
            | none =>
              match env.pinErr with
              | some e =>
                ([.parseDid, .resolveENS, .startNode, .encodeNode, .sumCid,
                  .newBlock, .pinLocal, .shutdown], some e)
              | none =>
                match env.putW3SErr with
                | some e =>
                  ([.parseDid, .resolveENS, .startNode, .encodeNode, .sumCid,
                    .newBlock, .pinLocal, .publishLocalIPNS, .putW3S,
                    .shutdown], some e)
                | none =>
                  ([.parseDid, .resolveENS, .startNode, .encodeNode, .sumCid,
                    .newBlock, .pinLocal, .publishLocalIPNS, .putW3S,
                    .publishW3SName, .shutdown], env.publishW3SNameErr)

/-- firstBeforeAll a bs t is true when, walking the trace t from the
front, the first occurrence of a is reached before any occurrence of an
event in bs (vacuously true when no event of bs occurs). -/
def firstBeforeAll (a : PEvent) (bs : List PEvent) : List PEvent → Bool
  | [] => true
  | x :: xs => if x = a then true else if bs.contains x then false else firstBeforeAll a bs xs

/-- The first error in a list of step outcomes, none when every step
succeeded. -/
def firstSome : List (Option String) → Option String
  | [] => none
  | some e :: _ => some e
  | none :: xs => firstSome xs

/-- A Web3.Storage name record as the pipeline observes it: the IPFS path
it points at (the value bytes handed to ipns.Create) and its sequence
number.  The validity deadline and signature carry no weight in the
claims settled here and are omitted. -/
structure W3SNameRecord where
  value : String
  sequence : Nat
deriving DecidableEq

/-- ipfspath.IpfsPath(cid).String(): the /ipfs/ path of a CID. -/
def ipfsPath (cidStr : String) : String := "/ipfs/" ++ cidStr

/-- w3s Client.GetName against a remote name store, with transportErr
injecting a genuine transport failure: on transport failure no record and
the error are returned; otherwise the record stored under the queried key
(if any) with a nil error. -/
def w3sGetName (store : String → Option W3SNameRecord)
    (transportErr : Option String) (key : String) :
    Option W3SNameRecord × Option String :=
  match transportErr with
  | some e => (none, some e)
  | none => (store key, none)

/-- Environment for one ipfs.PublishIPNSRecordForDAGNodeToW3S call: the
IPNS name GetIPNSPublicKeyName derives from the public key, and the
outcome of each fallible library step (none means success). -/
structure PublishW3SEnv where
  nameErr : Option String
  name : String
  clientErr : Option String
  skErr : Option String
  getNameErr : Option String
  createErr : Option String
  pkErr : Option String
  embedErr : Option String
  putNameErr : Option String

/-- ipfs.PublishIPNSRecordForDAGNodeToW3S, following the source line by
line: derive the IPNS name from the public key; form the path p of the
CID; build the client; unmarshal the private key; set seq to 1, then call
GetName with the PATH STRING p (not the name the record is later stored
under) and bump seq to the found sequence plus 1 only when a record came
back with a nil error; create the record binding p with sequence seq;
unmarshal and embed the public key; and finally PutName the record under
name, returning the PutName error.  The result is the remote name store
after the call and the returned error. -/
def publishIPNSRecordForDAGNodeToW3S (env : PublishW3SEnv)
    (store : String → Option W3SNameRecord) (cidStr : String) :
    (String → Option W3SNameRecord) × Option String :=
  match env.nameErr with
  | some e => (store, some e)
  | none =>
    let p := ipfsPath cidStr
    match env.clientErr with
    | some e => (store, some e)
    | none =>
      match env.skErr with
      | some e => (store, some e)
      | none =>
        let seq : Nat :=
          match w3sGetName store env.getNameErr p with
          | (some r, none) => r.sequence + 1
          | _ => 1
        match env.createErr with
        | some e => (store, some e)
        | none =>
          let nr : W3SNameRecord := { value := p, sequence := seq }
          match env.pkErr with
          | some e => (store, some e)
          | none =>
            match env.embedErr with
            | some e => (store, some e)
            | none =>
              match env.putNameErr with
              | some e => (store, some e)
              | none => (fun s => if s = env.name then some nr else store s, none)

/-- The fields of a cid.Prefix as fixed by the source: CID version,
multicodec code for the node encoding, multihash function code, and
multihash digest length in bytes. -/
structure CidPrefixParams where
  version : Nat
  codec : Nat
  mhType : Nat
  mhLength : Nat
deriving DecidableEq

/-- The multicodec code of cid.DagJSON. -/
def cidDagJSON : Nat := 0x0129

/-- The multicodec code of mh.SHA3_384. -/
def mhSHA3_384 : Nat := 0x15

/-- The SHA3-384 digest length in bytes. -/
def sha3_384DigestLength : Nat := 48

/-- The cid.Prefix literal in feed.CreateProfile. -/
def createProfileCidParams : CidPrefixParams :=
  { version := 1, codec := cidDagJSON, mhType := mhSHA3_384, mhLength := 48 }

/-- The cid.Prefix literal inside the cidlink.LinkPrototype in
ipfs.PutNostrEventAsIPLDLink. -/
def putNostrEventCidParams : CidPrefixParams :=
  { version := 1, codec := cidDagJSON, mhType := mhSHA3_384, mhLength := 48 }

/-- feed.User.  Go byte slices are List Nat; the Go zero value User has
the empty string and nil slices in every field. -/
structure User where
  did : String
  nostrPrivKey : List Nat
  nostrPubkey : List Nat
  ipnsPrivKey : List Nat
  ipnsPubKey : List Nat
deriving DecidableEq

/-- The Go zero value of feed.User. -/
def zeroUser : User :=
  { did := "", nostrPrivKey := [], nostrPubkey := [], ipnsPrivKey := [],
    ipnsPubKey := [] }

/-- The two filesystem calls feed.LoadUser makes: os.Stat (none on
success) and os.ReadFile (the file bytes on success). -/
structure UserFS where
  stat : String → Option String
  readFile : String → Except String (List Nat)

/-- feed.LoadUser, following the source: a Stat failure and a ReadFile
failure each return the zero User with that error; when json.Unmarshal
fails, the source returns User with the err variable, which at that point
still holds the nil error from the successful ReadFile, so the zero User
is returned with a nil error and the unmarshalling error is dropped. -/
def loadUser (unmarshal : List Nat → Except String User) (fs : UserFS)
    (file : String) : User × Option String :=
  match fs.stat file with
  | some e => (zeroUser, some e)
  | none =>
    match fs.readFile file with
    | .error e => (zeroUser, some e)
    | .ok u =>
      match unmarshal u with
      | .error _ => (zeroUser, none)
      | .ok user => (user, none)

/-- The empty block store, for the round-trip evaluation. -/
def c1EmptyStore : List Nat → Option (List Nat) := fun _ => none

/-- A decoder that accepts any bytes as a node, so that the read half of
the round trip fails only where the pipeline itself fails. -/
def okDecodeNode : List Nat → Except String IPLDNode := fun bs => .ok ⟨bs⟩

/-- A PublishW3SEnv in which every library step succeeds and the derived
IPNS name is the string n. -/
def pubEnvOk : PublishW3SEnv :=
  { nameErr := none, name := "n", clientErr := none, skErr := none,
    getNameErr := none, createErr := none, pkErr := none, embedErr := none,
    putNameErr := none }

/-- pubEnvOk with the pre-publish name lookup failing with a transport
error. -/
def pubEnvTransport : PublishW3SEnv :=
  { pubEnvOk with getNameErr := some "transport failure" }

/-- The empty remote name store. -/
def emptyNameStore : String → Option W3SNameRecord := fun _ => none

/-- The remote name store after a first successful publish of CID A under
the name n, starting from the empty store. -/
def c2Store1 : String → Option W3SNameRecord :=
  (publishIPNSRecordForDAGNodeToW3S pubEnvOk emptyNameStore "A").1

/-- The remote name store after a second successful publish, of CID B
under the same name n, starting from c2Store1. -/
def c2Store2 : String → Option W3SNameRecord :=
  (publishIPNSRecordForDAGNodeToW3S pubEnvOk c2Store1 "B").1

/-- A CreateProfileEnv in which every step succeeds. -/
def envAllOk : CreateProfileEnv :=
  { parseErr := none, ensErr := none, startErr := none, encodeErr := none,
    sumErr := none, newBlockErr := none, pinErr := none,
    publishLocalErr := none, putW3SErr := none, publishW3SNameErr := none }

/-- envAllOk with the local IPNS publish step failing. -/
def envLocalPublishFails : CreateProfileEnv :=
  { envAllOk with publishLocalErr := some "publish failed" }

/-- A filesystem on which Stat succeeds and ReadFile yields the byte 42
for every file. -/
def userFSOk : UserFS :=
  { stat := fun _ => none, readFile := fun _ => .ok [42] }

/-- An unmarshaller rejecting every input, standing for json.Unmarshal on
bytes that are not valid JSON for the User type. -/
def badUnmarshal : List Nat → Except String User :=
  fun _ => .error "invalid JSON"

/-- A block fetch that returns the byte 5 together with a read error, for
exercising the discarded io.ReadAll error. -/
def c10BlockGet : List Nat → Except String (List Nat × Option String) :=
  fun _ => .ok ([5], some "read error")

/-- A decoder rejecting every input, standing for ipldlegacy.DecodeNode
on bytes that do not decode as a node. -/
def c10BadDecode : List Nat → Except String IPLDNode :=
  fun _ => .error "decode error"

/-- C1 (evaluation at the failing input): open-write on the link with
binary form [7] yields a writer with an empty buffer; writing the bytes
[1, 2, 3] through it buffers nothing, because the Write method reads from
the empty internal buffer, returning 0 bytes consumed and the io.EOF
error with the buffer still empty; commit leaves every store unchanged
and reports success; and a subsequent open-read of the link finds no
block.  The round trip the claim states — read back the bytes that were
written — fails on the code. -/
theorem c1_write_path_eval :
    IPFSCore.openWrite [7] = .ok { cid := [7], data := [] } ∧
    IPFSLinkWriter.write { cid := [7], data := [] } [1, 2, 3] =
      ({ cid := [7], data := [] }, 0, some "EOF") ∧
    IPFSLinkWriter.blockWriteCommit { cid := [7], data := [] } c1EmptyStore =
      (c1EmptyStore, none) ∧
    IPFSCore.openRead (storeBlockGet c1EmptyStore) okDecodeNode [7] =
      .ret (none, some "block not found") :=
  ⟨rfl, rfl, rfl, rfl⟩

/-- C2 (evaluation at the failing input): two successive publishes under
the same name n, of CID A and then CID B, starting from the empty remote
store with every library step succeeding.  The first record is stored with
sequence 1; at the second publish a record for the name n exists remotely,
yet the second record is also stored with sequence 1 — not the previous
sequence plus 1 and not strictly greater — because the lookup queries the
path string of the new CID instead of the name. -/
theorem c2_sequence_never_advances :
    c2Store1 "n" = some { value := "/ipfs/A", sequence := 1 } ∧
    c2Store2 "n" = some { value := "/ipfs/B", sequence := 1 } :=
  ⟨rfl, rfl⟩

/-- C3 (evaluation at the failing input): against a local store holding
the block with CID [1], Has on that CID returns false with a nil error,
and against the empty store it returns true with the not-found error —
the Boolean is err != nil, the inverse of what the claim states. -/
theorem c3_has_inverted :
    IPFSCore.has [[1]] [1] = (false, none) ∧
    IPFSCore.has [] [1] = (true, some "block not found") :=
  ⟨rfl, rfl⟩

/-- C4 (counterexample): in the all-success run of CreateProfile the
trace is exactly the listed call sequence, and remote archival (putW3S)
does NOT happen before name-record publication: the local IPNS
name-record publication precedes the Web3.Storage upload. -/
theorem c4_counterexample :
    (createProfile envAllOk).1 =
      [.parseDid, .resolveENS, .startNode, .encodeNode, .sumCid, .newBlock,
       .pinLocal, .publishLocalIPNS, .putW3S, .publishW3SName, .shutdown] ∧
    firstBeforeAll .putW3S [.publishLocalIPNS, .publishW3SName]
      (createProfile envAllOk).1 = false :=
  ⟨rfl, rfl⟩

/-- C4 (amended): within every CreateProfile run, local persistence of
the block (the pin) happens before every name-record publication, local
or remote, and remote archival happens before the REMOTE name-record
publication; the local name-record publication, however, precedes remote
archival.  Hence no name record is published pointing at a CID that has
not yet been stored at least locally. -/
theorem c4_local_first_remote_archival_before_remote_name
    (env : CreateProfileEnv) :
    firstBeforeAll .pinLocal [.publishLocalIPNS, .publishW3SName]
      (createProfile env).1 = true ∧
    firstBeforeAll .putW3S [.publishW3SName] (createProfile env).1 = true := by
  obtain ⟨p, en, st, enc, sm, nb, pi, pl, pw, pn⟩ := env
  cases p <;> cases en <;> cases st <;> cases enc <;> cases sm <;> cases nb <;>
    cases pi <;> cases pw <;> cases pn <;> exact ⟨rfl, rfl⟩

/-- C4 witness: the amended ordering at the all-success environment. -/
theorem c4_ordering_witness :
    firstBeforeAll .pinLocal [.publishLocalIPNS, .publishW3SName]
      (createProfile envAllOk).1 = true ∧
    firstBeforeAll .putW3S [.publishW3SName] (createProfile envAllOk).1 = true :=
  c4_local_first_remote_archival_before_remote_name envAllOk

/-- C5 (counterexample): in a run of CreateProfile where the local IPNS
name-record publish step fails and every other step succeeds, the step is
executed (it is in the trace) yet CreateProfile returns a nil error: that
error is swallowed, contradicting the claim that no error of any step is. -/
theorem c5_counterexample :
    envLocalPublishFails.publishLocalErr = some "publish failed" ∧
    (createProfile envLocalPublishFails).1.contains PEvent.publishLocalIPNS =
      true ∧
    (createProfile envLocalPublishFails).2 = none :=
  ⟨rfl, rfl, rfl⟩

/-- C5 (amended): the error CreateProfile returns is the first error of
its steps in source order, EXCEPT that the local IPNS name-record publish
step is skipped: its error is discarded and every other step either
succeeds or aborts the pipeline with its error returned to the caller. -/
theorem c5_first_error_except_local_publish (env : CreateProfileEnv) :
    (createProfile env).2 =
      firstSome [env.parseErr, env.ensErr, env.startErr, env.encodeErr,
        env.sumErr, env.newBlockErr, env.pinErr, env.putW3SErr,
        env.publishW3SNameErr] := by
  obtain ⟨p, en, st, enc, sm, nb, pi, pl, pw, pn⟩ := env
  cases p <;> cases en <;> cases st <;> cases enc <;> cases sm <;> cases nb <;>
    cases pi <;> cases pw <;> cases pn <;> rfl

/-- C5 witness: the amended propagation rule at the environment whose
local publish step fails. -/
theorem c5_propagation_witness :
    (createProfile envLocalPublishFails).2 =
      firstSome [envLocalPublishFails.parseErr, envLocalPublishFails.ensErr,
        envLocalPublishFails.startErr, envLocalPublishFails.encodeErr,
        envLocalPublishFails.sumErr, envLocalPublishFails.newBlockErr,
        envLocalPublishFails.pinErr, envLocalPublishFails.putW3SErr,
        envLocalPublishFails.publishW3SNameErr] :=
  c5_first_error_except_local_publish envLocalPublishFails

/-- C6 (counterexample): when the pre-publish name lookup fails with a
transport error and every other step succeeds, the publish does not abort
with that error: it returns a nil error and publishes a record with the
sequence number restarted at the base value 1. -/
theorem c6_counterexample :
    pubEnvTransport.getNameErr = some "transport failure" ∧
    (publishIPNSRecordForDAGNodeToW3S pubEnvTransport emptyNameStore "A").2 =
      none ∧
    (publishIPNSRecordForDAGNodeToW3S pubEnvTransport emptyNameStore "A").1 "n" =
      some { value := "/ipfs/A", sequence := 1 } :=
  ⟨rfl, rfl, rfl⟩

/-- C6 (amended): when the pre-publish name lookup fails with a transport
error, the publish operation does NOT abort: the lookup error is
discarded, the operation proceeds with the sequence number restarted at
the base value 1, and (all later steps succeeding) it returns a nil
error, having stored a sequence-1 record under the name. -/
theorem c6_transport_error_not_fatal (e name cidStr : String)
    (store : String → Option W3SNameRecord) :
    (publishIPNSRecordForDAGNodeToW3S
      { pubEnvOk with name := name, getNameErr := some e } store cidStr).2 =
      none ∧
    (publishIPNSRecordForDAGNodeToW3S
      { pubEnvOk with name := name, getNameErr := some e } store cidStr).1 name =
      some { value := ipfsPath cidStr, sequence := 1 } := by
  constructor
  · rfl
  · simp [publishIPNSRecordForDAGNodeToW3S, w3sGetName, pubEnvOk]

/-- C6 witness: the amended behavior at a concrete transport error, name,
CID and the empty store. -/
theorem c6_transport_witness :
    (publishIPNSRecordForDAGNodeToW3S
      { pubEnvOk with name := "m", getNameErr := some "t" } emptyNameStore
      "B").2 = none ∧
    (publishIPNSRecordForDAGNodeToW3S
      { pubEnvOk with name := "m", getNameErr := some "t" } emptyNameStore
      "B").1 "m" = some { value := ipfsPath "B", sequence := 1 } :=
  c6_transport_error_not_fatal "t" "m" "B" emptyNameStore

/-- C7: on every run of CreateProfile in which the node was started —
DID parsing, ENS resolution and StartIPFSNode all succeed — the shutdown
closure is invoked exactly once before the operation returns, on the
success path and on every error path alike. -/
theorem c7_shutdown_exactly_once (env : CreateProfileEnv)
    (hp : env.parseErr = none) (he : env.ensErr = none)
    (hs : env.startErr = none) :
    ((createProfile env).1.count PEvent.shutdown) = 1 := by
  obtain ⟨p, en, st, enc, sm, nb, pi, pl, pw, pn⟩ := env
  cases p with
  | some e => exact Option.noConfusion hp
  | none =>
    cases en with
    | some e => exact Option.noConfusion he
    | none =>
      cases st with
      | some e => exact Option.noConfusion hs
      | none =>
        cases enc <;> cases sm <;> cases nb <;> cases pi <;> cases pw <;>
          cases pn <;> rfl

/-- C7 witness: exactly one shutdown in the all-success run. -/
theorem c7_shutdown_witness :
    ((createProfile envAllOk).1.count PEvent.shutdown) = 1 :=
  c7_shutdown_exactly_once envAllOk rfl rfl rfl

/-- C8: the two CID-derivation sites of the system — the cid.Prefix in
CreateProfile and the one in PutNostrEventAsIPLDLink — use one and the
same fixed parameter record: CID version 1, the DAG-JSON codec, the
SHA3-384 multihash function and its 48-byte digest length.  Both records
are closed constants of the source, so the triple is not configurable. -/
theorem c8_cid_params_fixed :
    createProfileCidParams = putNostrEventCidParams ∧
    createProfileCidParams =
      { version := 1, codec := cidDagJSON, mhType := mhSHA3_384,
        mhLength := sha3_384DigestLength } :=
  ⟨rfl, rfl⟩

/-- C9: whenever Stat succeeds, ReadFile succeeds with some bytes, and
json.Unmarshal rejects those bytes, LoadUser returns the zero User
together with a nil error — the unmarshalling error is dropped, because
the source returns the stale err variable of the successful ReadFile. -/
theorem c9_loadUser_swallows_json_error
    (unmarshal : List Nat → Except String User) (fs : UserFS) (file : String)
    (u : List Nat) (e : String)
    (hstat : fs.stat file = none) (hread : fs.readFile file = .ok u)
    (hjson : unmarshal u = .error e) :
    loadUser unmarshal fs file = (zeroUser, none) := by
  simp [loadUser, hstat, hread, hjson]

/-- C9 witness: a readable file whose single byte 42 is not valid JSON
for the User type makes LoadUser return the zero User and a nil error. -/
theorem c9_loadUser_witness :
    loadUser badUnmarshal userFSOk "user" = (zeroUser, none) :=
  c9_loadUser_swallows_json_error badUnmarshal userFSOk "user" [42]
    "invalid JSON" rfl rfl rfl

/-- C10: whenever the CID parses and the block fetch yields bytes buf
with some read error, IPFSCore.Get and IPFSCore.OpenRead (a) panic by
dereferencing the nil decoded node whenever decoding buf fails, instead
of returning the decode error, and (b) whenever decoding succeeds, return
the raw data with a nil error regardless of the read error, which is
never consulted. -/
theorem c10_get_openRead_error_branches
    (blockGet : List Nat → Except String (List Nat × Option String))
    (decodeNode : List Nat → Except String IPLDNode)
    (key k buf : List Nat) (readErr : Option String)
    (hc : cidFromBytes key = .ok k) (hb : blockGet k = .ok (buf, readErr)) :
    (∀ e, decodeNode buf = .error e →
      IPFSCore.get blockGet decodeNode key = .panics ∧
      IPFSCore.openRead blockGet decodeNode key = .panics) ∧
    (∀ n, decodeNode buf = .ok n →
      IPFSCore.get blockGet decodeNode key = .ret (n.rawData, none) ∧
      IPFSCore.openRead blockGet decodeNode key =
        .ret (some n.rawData, none)) := by
  constructor
  · intro e hd
    constructor <;> simp [IPFSCore.get, IPFSCore.openRead, hc, hb, hd]
  · intro n hd
    constructor <;> simp [IPFSCore.get, IPFSCore.openRead, hc, hb, hd]

/-- C10 witness: at the key [1], a fetch returning the byte 5 with a read
error, and a decoder that rejects those bytes, both Get and OpenRead
panic. -/
theorem c10_panic_witness :
    IPFSCore.get c10BlockGet c10BadDecode [1] = .panics ∧
    IPFSCore.openRead c10BlockGet c10BadDecode [1] = .panics :=
  (c10_get_openRead_error_branches c10BlockGet c10BadDecode [1] [1] [5]
    (some "read error") rfl rfl).1 "decode error" rfl
